import Mathlib

/-!
Verification of the solar-fuzzy GHI estimation core: a shallow embedding of
the two inference engines, `ghi_sugeno.py` (Sugeno weighted-linear blending)
and `ghi_mamdani.py` (Mamdani rule base with centroid defuzzification), over
the real numbers, together with theorems settling the specification claims.
-/

open scoped Classical

noncomputable section

/-- Embedding of `np.clip(x, lo, hi)` for `lo ≤ hi`: clamp `x` into `[lo, hi]`. -/
def clip (x lo hi : ℝ) : ℝ := max lo (min x hi)

/-- Embedding of `gaussian(x, mean, sigma)` from `src/ghi_sugeno.py`:
`np.exp(-0.5 * ((x - mean) / sigma) ** 2)`. -/
def gaussian (x mean sigma : ℝ) : ℝ := Real.exp (-0.5 * ((x - mean) / sigma) ^ 2)

/-- Per-rule linear consequent coefficients of the Sugeno engine: the `"w"`
list (aligned with inputs `[hora_sin, hora_cos, tipo_nuvem, temp_ar]`) and the
bias `"b"`, as stored in the `PESOS` dictionary of `src/ghi_sugeno.py`. -/
structure Coefs where
  w1 : ℝ
  w2 : ℝ
  w3 : ℝ
  w4 : ℝ
  b : ℝ

/-- Embedding of the `PESOS` dictionary of `src/ghi_sugeno.py` as an
association list in the source's insertion order. -/
def PESOS : List (String × Coefs) := [
  ("pico_limpo_frio", ⟨0, -450, -20, 6, 550⟩),
  ("pico_limpo_calor", ⟨0, -400, -20, 2, 480⟩),
  ("pico_parcial_frio", ⟨0, -320, -20, 4, 300⟩),
  ("pico_parcial_calor", ⟨0, -280, -20, 2, 240⟩),
  ("pico_encoberto_frio", ⟨0, -100, -30, 1, 60⟩),
  ("pico_encoberto_calor", ⟨0, -100, -30, 0.5, 40⟩),
  ("dia_limpo_manha_frio", ⟨60, -450, -30, 5, 600⟩),
  ("dia_limpo_manha_calor", ⟨40, -400, -30, 2, 520⟩),
  ("dia_parcial_manha_frio", ⟨40, -300, -40, 3, 320⟩),
  ("dia_parcial_manha_calor", ⟨30, -260, -40, 1, 260⟩),
  ("dia_limpo_tarde_frio", ⟨0, -420, -30, 4, 550⟩),
  ("dia_parcial_tarde_frio", ⟨0, -300, -40, 2, 250⟩),
  ("dia_encoberto_tarde_frio", ⟨0, -80, -20, 0.5, 50⟩),
  ("dia_encoberto", ⟨0, -80, -20, 0.5, 40⟩),
  ("horizonte_nascer", ⟨50, -300, -20, 1, 200⟩),
  ("horizonte_por", ⟨0, -300, -20, 1, 150⟩),
  ("horizonte_nublado", ⟨0, -80, -10, 0, 30⟩),
  ("noite", ⟨0, 0, 0, 0, 0⟩)]

/-- Embedding of `calcular_ativacao(h_sin, h_cos, nuvem, temp)` from
`src/ghi_sugeno.py`, returning the rule-activation dictionary as an
association list in the source's insertion order. -/
def calcular_ativacao (h_sin h_cos nuvem temp : ℝ) : List (String × ℝ) :=
  let p_meio_dia := gaussian h_cos (-1) 0.3
  let p_manha_tarde := gaussian h_cos (-0.5) 0.3
  let p_horizonte := gaussian h_cos 0 0.2
  let p_periodo_manha := gaussian h_sin 0.7 0.5
  let p_periodo_tarde := gaussian h_sin (-0.7) 0.5
  let p_noite : ℝ := if 0.2 < h_cos then 1 else 0
  let p_horizonte :=
    if 0.1 < h_cos then max 0 (p_horizonte * (1 - (h_cos - 0.1) * 10)) else p_horizonte
  let p_limpo := gaussian nuvem 0 2
  let p_parcial := gaussian nuvem 5 2.5
  let p_encoberto := gaussian nuvem 10 2.5
  let p_frio := gaussian temp 20 10
  let p_calor := gaussian temp 35 10
  if 0.5 < p_noite then [("noite", 1)]
  else [
    ("pico_limpo_frio", p_meio_dia * p_limpo * p_frio),
    ("pico_limpo_calor", p_meio_dia * p_limpo * p_calor),
    ("pico_parcial_frio", p_meio_dia * p_parcial * p_frio),
    ("pico_parcial_calor", p_meio_dia * p_parcial * p_calor),
    ("pico_encoberto_frio", p_meio_dia * p_encoberto * p_frio),
    ("pico_encoberto_calor", p_meio_dia * p_encoberto * p_calor),
    ("dia_limpo_manha_frio", p_manha_tarde * p_periodo_manha * p_limpo * p_frio),
    ("dia_limpo_manha_calor", p_manha_tarde * p_periodo_manha * p_limpo * p_calor),
    ("dia_parcial_manha_frio", p_manha_tarde * p_periodo_manha * p_parcial * p_frio),
    ("dia_parcial_manha_calor", p_manha_tarde * p_periodo_manha * p_parcial * p_calor),
    ("dia_limpo_tarde_frio", p_manha_tarde * p_periodo_tarde * p_limpo * p_frio),
    ("dia_parcial_tarde_frio", p_manha_tarde * p_periodo_tarde * p_parcial * p_frio),
    ("dia_encoberto_tarde_frio", p_manha_tarde * p_periodo_tarde * p_encoberto * p_frio),
    ("dia_encoberto", p_manha_tarde * p_encoberto * max p_calor 0.2),
    ("horizonte_nascer", p_horizonte * p_periodo_manha * max p_limpo p_parcial),
    ("horizonte_por", p_horizonte * p_periodo_tarde * max p_limpo p_parcial),
    ("horizonte_nublado", p_horizonte * p_encoberto)]

/-- One iteration of the accumulation loop of `avaliar_ghi_sugeno`: for an
activation entry `(regra, grau)`, its contribution `(grau * y_regra, grau)` to
`(numerador, denominador)`, or `(0, 0)` when the threshold `grau > 0.001`
fails or the rule has no entry in `PESOS`. -/
def termo (s c n t : ℝ) (p : String × ℝ) : ℝ × ℝ :=
  match PESOS.lookup p.1 with
  | some m =>
      if 0.001 < p.2 then
        (p.2 * (m.w1 * s + m.w2 * c + m.w3 * n + m.w4 * t + m.b), p.2)
      else (0, 0)
  | none => (0, 0)

/-- The aggregation tail of `avaliar_ghi_sugeno` (`src/ghi_sugeno.py` lines
171-188): accumulate numerator and denominator over the activation list, fall
back to `0.0` on a zero denominator, otherwise return the weighted average
clipped to `[0, 1400]`. -/
def agregar (ativ : List (String × ℝ)) (s c n t : ℝ) : ℝ :=
  let numerador := (ativ.map fun p => (termo s c n t p).1).sum
  let denominador := (ativ.map fun p => (termo s c n t p).2).sum
  if denominador = 0 then 0 else clip (numerador / denominador) 0 1400

/-- Embedding of `avaliar_ghi_sugeno(h_sin, h_cos, nuvem, temp)` from
`src/ghi_sugeno.py`: clip the four inputs, compute the activation map, and
aggregate. -/
def avaliar_ghi_sugeno (h_sin h_cos nuvem temp : ℝ) : ℝ :=
  let c := clip h_cos (-1) 1
  let s := clip h_sin (-1) 1
  let n := clip nuvem 0 10
  let t := clip temp 10 45
  agregar (calcular_ativacao s c n t) s c n t

/-- Modelled from the spec: the Gaussian membership curve `fuzz.gaussmf` used
by `src/ghi_mamdani.py` lives in the third-party skfuzzy library, not under
`src/`; per spec section 4.1 it is `exp` of the negated squared deviation. -/
def gaussmf (x mean sigma : ℝ) : ℝ := Real.exp (-(x - mean) ^ 2 / (2 * sigma ^ 2))

/-- Modelled from the spec: the triangular membership curve `fuzz.trimf` used
by `src/ghi_mamdani.py` lives in skfuzzy, not under `src/`; per spec section
4.1, 0 outside `[a, c]`, linear ramp up on `[a, b]`, linear ramp down on
`[b, c]`, 1 at `b`. -/
def trimf (x a b c : ℝ) : ℝ :=
  if x = b then 1
  else if a < x ∧ x < b then (x - a) / (b - a)
  else if b < x ∧ x < c then (c - x) / (c - b)
  else 0

/-- Modelled from the spec: the trapezoidal membership curve `fuzz.trapmf`
used by `src/ghi_mamdani.py` lives in skfuzzy, not under `src/`; per spec
section 4.1, 0 outside `[a, d]`, ramp up on `[a, b]`, plateau 1 on `[b, c]`,
ramp down on `[c, d]`. -/
def trapmf (x a b c d : ℝ) : ℝ :=
  if x < a then 0
  else if x < b then (x - a) / (b - a)
  else if x ≤ c then 1
  else if x < d then (d - x) / (d - c)
  else 0

/-- Membership set `hora_cos['zenite']` of `src/ghi_mamdani.py`. -/
def hora_cos_zenite (x : ℝ) : ℝ := gaussmf x (-1) 0.15

/-- Membership set `hora_cos['alto']` of `src/ghi_mamdani.py`. -/
def hora_cos_alto (x : ℝ) : ℝ := gaussmf x (-0.5) 0.15

/-- Membership set `hora_cos['baixo']` of `src/ghi_mamdani.py`. -/
def hora_cos_baixo (x : ℝ) : ℝ := gaussmf x 0 0.15

/-- Membership set `hora_cos['noite']` of `src/ghi_mamdani.py`. -/
def hora_cos_noite (x : ℝ) : ℝ := gaussmf x 1 0.2

/-- Membership set `hora_sin['tarde']` of `src/ghi_mamdani.py`. -/
def hora_sin_tarde (x : ℝ) : ℝ := gaussmf x (-1) 0.4

/-- Membership set `hora_sin['manha']` of `src/ghi_mamdani.py`. -/
def hora_sin_manha (x : ℝ) : ℝ := gaussmf x 1 0.4

/-- Membership set `tipo_nuvem['limpo']` of `src/ghi_mamdani.py`. -/
def tipo_nuvem_limpo (x : ℝ) : ℝ := gaussmf x 0 1.5

/-- Membership set `tipo_nuvem['parcial']` of `src/ghi_mamdani.py`. -/
def tipo_nuvem_parcial (x : ℝ) : ℝ := gaussmf x 5 2

/-- Membership set `tipo_nuvem['encoberto']` of `src/ghi_mamdani.py`. -/
def tipo_nuvem_encoberto (x : ℝ) : ℝ := gaussmf x 10 2

/-- Membership set `temp_ar['conforto']` of `src/ghi_mamdani.py`. -/
def temp_ar_conforto (x : ℝ) : ℝ := gaussmf x 20 8

/-- Membership set `temp_ar['quente']` of `src/ghi_mamdani.py`. -/
def temp_ar_quente (x : ℝ) : ℝ := gaussmf x 35 8

/-- Consequent set `ghi['zero']` of `src/ghi_mamdani.py`. -/
def ghi_zero (y : ℝ) : ℝ := trimf y 0 0 10

/-- Consequent set `ghi['muito_baixo']` of `src/ghi_mamdani.py`. -/
def ghi_muito_baixo (y : ℝ) : ℝ := trimf y 10 150 300

/-- Consequent set `ghi['baixo']` of `src/ghi_mamdani.py`. -/
def ghi_baixo (y : ℝ) : ℝ := trimf y 200 350 500

/-- Consequent set `ghi['medio']` of `src/ghi_mamdani.py`. -/
def ghi_medio (y : ℝ) : ℝ := trimf y 400 550 700

/-- Consequent set `ghi['alto']` of `src/ghi_mamdani.py`. -/
def ghi_alto (y : ℝ) : ℝ := trimf y 600 750 850

/-- Consequent set `ghi['muito_alto']` of `src/ghi_mamdani.py`. -/
def ghi_muito_alto (y : ℝ) : ℝ := trimf y 850 950 1050

/-- Consequent set `ghi['extremo']` of `src/ghi_mamdani.py`. -/
def ghi_extremo (y : ℝ) : ℝ := trapmf y 980 1050 1100 1100

/-- A Mamdani rule: the antecedent firing-strength function on the four
clipped inputs (AND is `min`, OR is `max`, per spec section 4.2 step 2), and
the consequent membership curve over the GHI universe. -/
structure RegraMamdani where
  antecedente : ℝ → ℝ → ℝ → ℝ → ℝ
  consequente : ℝ → ℝ

/-- Embedding of the 19-entry `regras` list of `src/ghi_mamdani.py`, in the
source's append order. -/
def regras : List RegraMamdani := [
  ⟨fun _ c _ _ => hora_cos_noite c, ghi_zero⟩,
  ⟨fun _ c n _ => min (hora_cos_baixo c) (tipo_nuvem_encoberto n), ghi_zero⟩,
  ⟨fun _ c n t => min (hora_cos_zenite c) (min (tipo_nuvem_limpo n) (temp_ar_conforto t)),
    ghi_extremo⟩,
  ⟨fun _ c n t => min (hora_cos_zenite c) (min (tipo_nuvem_limpo n) (temp_ar_quente t)),
    ghi_muito_alto⟩,
  ⟨fun _ c n t => min (hora_cos_zenite c) (min (tipo_nuvem_parcial n) (temp_ar_conforto t)),
    ghi_alto⟩,
  ⟨fun _ c n t => min (hora_cos_zenite c) (min (tipo_nuvem_parcial n) (temp_ar_quente t)),
    ghi_medio⟩,
  ⟨fun _ c n t => min (hora_cos_zenite c) (min (tipo_nuvem_encoberto n) (temp_ar_conforto t)),
    ghi_baixo⟩,
  ⟨fun _ c n t => min (hora_cos_zenite c) (min (tipo_nuvem_encoberto n) (temp_ar_quente t)),
    ghi_muito_baixo⟩,
  ⟨fun s c n t =>
    min (hora_cos_alto c) (min (hora_sin_manha s) (min (tipo_nuvem_limpo n) (temp_ar_conforto t))),
    ghi_muito_alto⟩,
  ⟨fun s c n t =>
    min (hora_cos_alto c) (min (hora_sin_manha s) (min (tipo_nuvem_limpo n) (temp_ar_quente t))),
    ghi_alto⟩,
  ⟨fun s c n t =>
    min (hora_cos_alto c)
      (min (hora_sin_manha s) (min (tipo_nuvem_parcial n) (temp_ar_conforto t))),
    ghi_medio⟩,
  ⟨fun s c n t =>
    min (hora_cos_alto c) (min (hora_sin_manha s) (min (tipo_nuvem_parcial n) (temp_ar_quente t))),
    ghi_baixo⟩,
  ⟨fun s c n t =>
    min (hora_cos_alto c) (min (hora_sin_tarde s) (min (tipo_nuvem_limpo n) (temp_ar_conforto t))),
    ghi_alto⟩,
  ⟨fun s c n t =>
    min (hora_cos_alto c) (min (hora_sin_tarde s) (min (tipo_nuvem_limpo n) (temp_ar_quente t))),
    ghi_medio⟩,
  ⟨fun s c n t =>
    min (hora_cos_alto c)
      (min (hora_sin_tarde s) (min (tipo_nuvem_parcial n) (temp_ar_conforto t))),
    ghi_baixo⟩,
  ⟨fun s c n t =>
    min (hora_cos_alto c) (min (hora_sin_tarde s) (min (tipo_nuvem_parcial n) (temp_ar_quente t))),
    ghi_muito_baixo⟩,
  ⟨fun _ c n _ => min (hora_cos_alto c) (tipo_nuvem_encoberto n), ghi_muito_baixo⟩,
  ⟨fun s c n _ =>
    min (hora_cos_baixo c)
      (min (hora_sin_manha s) (max (tipo_nuvem_limpo n) (tipo_nuvem_parcial n))),
    ghi_baixo⟩,
  ⟨fun s c n _ =>
    min (hora_cos_baixo c)
      (min (hora_sin_tarde s) (max (tipo_nuvem_limpo n) (tipo_nuvem_parcial n))),
    ghi_muito_baixo⟩]

/-- Modelled from the spec: the discretized consequent universe
`np.linspace(0, 1200, 1200)` of `ghi`, used by the skfuzzy centroid
integration (spec sections 4.2 and 6), which is not under `src/`. -/
def ghiPts : List ℝ := (List.range 1200).map fun i : ℕ => 1200 * (i : ℝ) / 1199

/-- Modelled from the spec: the aggregated output curve of the Mamdani engine
(spec section 4.2 steps 3-4; computed inside skfuzzy, not under `src/`): at
each output point, the maximum over rules of the consequent curve truncated by
`min` to the rule's firing strength. -/
def agregado (s c n t y : ℝ) : ℝ :=
  (regras.map fun r => min (r.antecedente s c n t) (r.consequente y)).foldr max 0

/-- Modelled from the spec: centroid defuzzification over a discretized
universe (spec section 4.2 steps 5-6; computed inside skfuzzy, not under
`src/`): `Σ (point * membership) / Σ membership`, with `0.0` returned when the
denominator is zero. -/
def centroid (pts : List ℝ) (μ : ℝ → ℝ) : ℝ :=
  let den := (pts.map μ).sum
  if den = 0 then 0 else (pts.map fun y => y * μ y).sum / den

/-- Modelled from the spec: the full Mamdani inference on already-clipped
inputs (spec section 4.2; the pipeline runs inside skfuzzy, not under
`src/`). -/
def computeMamdani (s c n t : ℝ) : ℝ := centroid ghiPts (agregado s c n t)

/-- The mutable `ctrl.ControlSystemSimulation` object `simulador` of
`src/ghi_mamdani.py`, reduced to its observable state: the four input
registers last written by `simulador.input[...] = ...`. -/
structure SimState where
  hora_sin : ℝ
  hora_cos : ℝ
  tipo_nuvem : ℝ
  temp_ar : ℝ

/-- Embedding of `avaliar_ghi_mamdani(h_sin, h_cos, nuvem, temp)` from
`src/ghi_mamdani.py`: write the four clipped inputs into the shared simulator
state, compute, and return the output together with the post-call state. -/
def avaliar_ghi_mamdani (sim : SimState) (h_sin h_cos nuvem temp : ℝ) : ℝ × SimState :=
  let sim' : SimState :=
    ⟨clip h_sin (-1) 1, clip h_cos (-1) 1, clip nuvem 0 10, clip temp 10 45⟩
  (computeMamdani sim'.hora_sin sim'.hora_cos sim'.tipo_nuvem sim'.temp_ar, sim')

end

/-- For `lo ≤ hi`, the lower clamp bound holds. -/
lemma le_clip (x lo hi : ℝ) : lo ≤ clip x lo hi := le_max_left _ _

/-- For `lo ≤ hi`, the upper clamp bound holds. -/
lemma clip_le {lo hi : ℝ} (x : ℝ) (h : lo ≤ hi) : clip x lo hi ≤ hi :=
  max_le h (min_le_right _ _)

/-- Clipping is idempotent on any interval with `lo ≤ hi`. -/
lemma clip_idem {lo hi : ℝ} (x : ℝ) (h : lo ≤ hi) :
    clip (clip x lo hi) lo hi = clip x lo hi := by
  calc clip (clip x lo hi) lo hi = max lo (min (clip x lo hi) hi) := rfl
  _ = max lo (clip x lo hi) := by rw [min_eq_left (clip_le x h)]
  _ = clip x lo hi := max_eq_right (le_clip x lo hi)

/-- With `h_cos > 0.2`, the activation map short-circuits to the single night
entry. -/
lemma ativacao_noturna (s c n t : ℝ) (h : 0.2 < c) :
    calcular_ativacao s c n t = [("noite", 1)] := by
  simp only [calcular_ativacao, if_pos h]
  norm_num

/-- The weighted-average tail of the Sugeno engine evaluates to `0` on the
single-entry night activation map: the night linear model is identically
zero. -/
lemma agregar_noite (s c n t : ℝ) : agregar [("noite", 1)] s c n t = 0 := by
  have hlook : PESOS.lookup "noite" = some ⟨0, 0, 0, 0, 0⟩ := rfl
  simp only [agregar, termo, List.map, hlook, List.sum_cons, List.sum_nil]
  norm_num [clip]

/-- C2: for every `hora_sin`, `tipo_nuvem` and `temp_ar`, if `hora_cos > 0.2`
then `calcular_ativacao` returns the single-entry map `[("noite", 1)]` and
`avaliar_ghi_sugeno` returns exactly `0`. -/
theorem claim2 (s n t c : ℝ) (h : 0.2 < c) :
    calcular_ativacao s c n t = [("noite", 1)] ∧ avaliar_ghi_sugeno s c n t = 0 := by
  refine ⟨ativacao_noturna s c n t h, ?_⟩
  have hc : (0.2 : ℝ) < clip c (-1) 1 := by
    have h1 : (0.2 : ℝ) < min c 1 := lt_min h (by norm_num)
    exact h1.trans_le (le_max_right _ _)
  simp only [avaliar_ghi_sugeno]
  rw [ativacao_noturna _ _ _ _ hc]
  exact agregar_noite _ _ _ _

/-- Witness for C2 at the concrete input `(0, 1, 5, 25)`. -/
theorem claim2_witness :
    (0.2 : ℝ) < 1 ∧
      (calcular_ativacao 0 1 5 25 = [("noite", 1)] ∧ avaliar_ghi_sugeno 0 1 5 25 = 0) :=
  ⟨by norm_num, claim2 0 5 25 1 (by norm_num)⟩

/-- C4 counterexample: the Sugeno weight table `PESOS` does not have 21
entries (it has 18). -/
theorem claim4_cex : PESOS.length ≠ 21 := by
  intro h
  rw [show PESOS.length = 18 from rfl] at h
  omega

/-- C4 (amended): the Mamdani rule base contains exactly 19 rules and the
Sugeno weight table `PESOS` contains exactly 18 named entries including
`"noite"`; both are fixed constants of the embedding. -/
theorem claim4 :
    regras.length = 19 ∧ PESOS.length = 18 ∧ PESOS.lookup "noite" = some ⟨0, 0, 0, 0, 0⟩ :=
  ⟨rfl, rfl, rfl⟩

/-- C7: evaluating either engine on pre-clipped inputs gives the same result
as evaluating it on the raw inputs. -/
theorem claim7 (st : SimState) (a b c d : ℝ) :
    avaliar_ghi_mamdani st (clip a (-1) 1) (clip b (-1) 1) (clip c 0 10) (clip d 10 45)
      = avaliar_ghi_mamdani st a b c d ∧
    avaliar_ghi_sugeno (clip a (-1) 1) (clip b (-1) 1) (clip c 0 10) (clip d 10 45)
      = avaliar_ghi_sugeno a b c d := by
  constructor
  · simp only [avaliar_ghi_mamdani]
    rw [clip_idem a (by norm_num), clip_idem b (by norm_num), clip_idem c (by norm_num),
      clip_idem d (by norm_num)]
  · simp only [avaliar_ghi_sugeno]
    rw [clip_idem a (by norm_num), clip_idem b (by norm_num), clip_idem c (by norm_num),
      clip_idem d (by norm_num)]

/-- C8 counterexample: with `sigma = -1 ≤ 0`, `gaussian` does not fail: it
returns the ordinary positive membership value `exp (-0.5)`. -/
theorem claim8_cex : gaussian 1 0 (-1) = Real.exp (-0.5) ∧ 0 < gaussian 1 0 (-1) := by
  constructor
  · norm_num [gaussian]
  · exact Real.exp_pos _

/-- C8 (amended): `gaussian x mean sigma` equals
`exp (-0.5 * ((x - mean) / sigma) ^ 2)`, always lies in `(0, 1]`, equals `1`
exactly at `x = mean` when `sigma > 0`, and performs no sigma validation: a
negative sigma evaluates normally (the function is even in sigma). -/
theorem claim8 (x m σ : ℝ) :
    gaussian x m σ = Real.exp (-0.5 * ((x - m) / σ) ^ 2) ∧
    0 < gaussian x m σ ∧ gaussian x m σ ≤ 1 ∧
    (0 < σ → gaussian m m σ = 1) ∧
    gaussian x m (-σ) = gaussian x m σ := by
  refine ⟨rfl, Real.exp_pos _, ?_, fun _ => ?_, ?_⟩
  · rw [gaussian, Real.exp_le_one_iff]
    nlinarith [sq_nonneg ((x - m) / σ)]
  · simp [gaussian]
  · simp [gaussian, div_neg]

/-- Witness for C8 at `x = 0`, `mean = 0`, `sigma = 1`. -/
theorem claim8_witness : (0 : ℝ) < 1 ∧ gaussian 0 0 1 = 1 :=
  ⟨by norm_num, (claim8 0 0 1).2.2.2.1 (by norm_num)⟩

/-- C9: both engines are deterministic; the Mamdani output does not depend on
the simulator state left by earlier calls, and an immediate repeated call
returns the identical output. -/
theorem claim9 (st1 st2 : SimState) (s c n t : ℝ) :
    (avaliar_ghi_mamdani st1 s c n t).1 = (avaliar_ghi_mamdani st2 s c n t).1 ∧
    (avaliar_ghi_mamdani (avaliar_ghi_mamdani st1 s c n t).2 s c n t).1
      = (avaliar_ghi_mamdani st1 s c n t).1 ∧
    avaliar_ghi_sugeno s c n t = avaliar_ghi_sugeno s c n t :=
  ⟨rfl, rfl, rfl⟩

/-- Folding `max` from `0` over a list of reals is nonnegative. -/
lemma foldr_max_nonneg (l : List ℝ) : 0 ≤ l.foldr max 0 := by
  induction l with
  | nil => exact le_refl 0
  | cons a l ih => exact le_max_of_le_right ih

/-- The aggregated Mamdani output curve is nonnegative everywhere. -/
lemma agregado_nonneg (s c n t y : ℝ) : 0 ≤ agregado s c n t y :=
  foldr_max_nonneg _

/-- Every point of the discretized GHI universe lies in `[0, 1200]`. -/
lemma ghiPts_mem {y : ℝ} (h : y ∈ ghiPts) : 0 ≤ y ∧ y ≤ 1200 := by
  rw [ghiPts, List.mem_map] at h
  obtain ⟨i, hi, rfl⟩ := h
  rw [List.mem_range] at hi
  have hi' : (i : ℝ) ≤ 1199 := by
    have h2 : i ≤ 1199 := Nat.lt_succ_iff.mp hi
    exact_mod_cast h2
  constructor
  · positivity
  · rw [div_le_iff₀ (by norm_num : (0 : ℝ) < 1199)]
    nlinarith

/-- The discretized centroid of a nonnegative membership curve over points in
`[0, B]` lies in `[0, B]`. -/
lemma centroid_bounds (pts : List ℝ) (μ : ℝ → ℝ) (B : ℝ) (hB : 0 ≤ B)
    (hpts : ∀ y ∈ pts, 0 ≤ y ∧ y ≤ B) (hμ : ∀ y ∈ pts, 0 ≤ μ y) :
    0 ≤ centroid pts μ ∧ centroid pts μ ≤ B := by
  have hden0 : 0 ≤ (pts.map μ).sum := by
    apply List.sum_nonneg
    intro x hx
    obtain ⟨y, hy, rfl⟩ := List.mem_map.mp hx
    exact hμ y hy
  simp only [centroid]
  by_cases hd : (pts.map μ).sum = 0
  · simp [hd]
    exact hB
  · rw [if_neg hd]
    have hdpos : 0 < (pts.map μ).sum := lt_of_le_of_ne hden0 (Ne.symm hd)
    have hnum0 : 0 ≤ (pts.map fun y => y * μ y).sum := by
      apply List.sum_nonneg
      intro x hx
      obtain ⟨y, hy, rfl⟩ := List.mem_map.mp hx
      exact mul_nonneg (hpts y hy).1 (hμ y hy)
    have hnumB : (pts.map fun y => y * μ y).sum ≤ B * (pts.map μ).sum := by
      calc (pts.map fun y => y * μ y).sum ≤ (pts.map fun y => B * μ y).sum := by
            apply List.sum_le_sum
            intro y hy
            exact mul_le_mul_of_nonneg_right (hpts y hy).2 (hμ y hy)
      _ = B * (pts.map μ).sum := List.sum_map_mul_left _ _ _
    exact ⟨div_nonneg hnum0 hden0, (div_le_iff₀ hdpos).mpr hnumB⟩

/-- The weighted-average tail of the Sugeno engine always lands in
`[0, 1400]`: either the zero fallback or the final clip. -/
lemma agregar_bounds (ativ : List (String × ℝ)) (s c n t : ℝ) :
    0 ≤ agregar ativ s c n t ∧ agregar ativ s c n t ≤ 1400 := by
  simp only [agregar]
  by_cases hd : (ativ.map fun p => (termo s c n t p).2).sum = 0
  · rw [if_pos hd]
    norm_num
  · rw [if_neg hd]
    exact ⟨le_clip _ _ _, clip_le _ (by norm_num)⟩

/-- C1: for every 4-tuple of valid inputs, the Mamdani estimate lies in
`[0, 1200]` and the Sugeno estimate lies in `[0, 1400]` (both are
well-defined real numbers, hence finite in this embedding). -/
theorem claim1 (st : SimState) (s c n t : ℝ)
    (hs : -1 ≤ s ∧ s ≤ 1) (hc : -1 ≤ c ∧ c ≤ 1)
    (hn : 0 ≤ n ∧ n ≤ 10) (ht : 10 ≤ t ∧ t ≤ 45) :
    (0 ≤ (avaliar_ghi_mamdani st s c n t).1 ∧ (avaliar_ghi_mamdani st s c n t).1 ≤ 1200) ∧
    (0 ≤ avaliar_ghi_sugeno s c n t ∧ avaliar_ghi_sugeno s c n t ≤ 1400) := by
  constructor
  · exact centroid_bounds ghiPts
      (agregado (clip s (-1) 1) (clip c (-1) 1) (clip n 0 10) (clip t 10 45)) 1200
      (by norm_num) (fun y hy => ghiPts_mem hy) (fun y _ => agregado_nonneg _ _ _ _ y)
  · exact agregar_bounds _ _ _ _ _

/-- Witness for C1 at the concrete valid input `(0, -1, 0, 20)`. -/
theorem claim1_witness :
    (((-1 : ℝ) ≤ 0 ∧ (0 : ℝ) ≤ 1) ∧ ((-1 : ℝ) ≤ -1 ∧ (-1 : ℝ) ≤ 1) ∧
      ((0 : ℝ) ≤ 0 ∧ (0 : ℝ) ≤ 10) ∧ ((10 : ℝ) ≤ 20 ∧ (20 : ℝ) ≤ 45)) ∧
    ((0 ≤ (avaliar_ghi_mamdani ⟨0, 0, 0, 0⟩ 0 (-1) 0 20).1 ∧
        (avaliar_ghi_mamdani ⟨0, 0, 0, 0⟩ 0 (-1) 0 20).1 ≤ 1200) ∧
      (0 ≤ avaliar_ghi_sugeno 0 (-1) 0 20 ∧ avaliar_ghi_sugeno 0 (-1) 0 20 ≤ 1400)) :=
  ⟨⟨⟨by norm_num, by norm_num⟩, ⟨by norm_num, by norm_num⟩,
    ⟨by norm_num, by norm_num⟩, ⟨by norm_num, by norm_num⟩⟩,
   claim1 ⟨0, 0, 0, 0⟩ 0 (-1) 0 20 ⟨by norm_num, by norm_num⟩ ⟨by norm_num, by norm_num⟩
     ⟨by norm_num, by norm_num⟩ ⟨by norm_num, by norm_num⟩⟩

/-- C5: in the degenerate case the engines return `0.0` rather than failing:
an all-zero aggregated curve makes the Mamdani centroid return `0`, and an
activation list in which no degree exceeds the `0.001` threshold makes the
Sugeno aggregation return `0` (zero denominator). -/
theorem claim5 :
    (∀ μ : ℝ → ℝ, (∀ y ∈ ghiPts, μ y = 0) → centroid ghiPts μ = 0) ∧
    (∀ (ativ : List (String × ℝ)) (s c n t : ℝ),
      (∀ p ∈ ativ, p.2 ≤ 0.001) → agregar ativ s c n t = 0) := by
  constructor
  · intro μ hμ
    have hden : (ghiPts.map μ).sum = 0 := by
      apply List.sum_eq_zero
      intro x hx
      obtain ⟨y, hy, rfl⟩ := List.mem_map.mp hx
      exact hμ y hy
    simp [centroid, hden]
  · intro ativ s c n t h
    have hterm : ∀ p ∈ ativ, termo s c n t p = (0, 0) := by
      intro p hp
      have hng : ¬ (0.001 < p.2) := not_lt.mpr (h p hp)
      rcases hl : PESOS.lookup p.1 with _ | m
      · simp [termo, hl]
      · simp [termo, hl, hng]
    have hden : (ativ.map fun p => (termo s c n t p).2).sum = 0 := by
      apply List.sum_eq_zero
      intro x hx
      obtain ⟨p, hp, rfl⟩ := List.mem_map.mp hx
      rw [hterm p hp]
    simp [agregar, hden]

/-- Witness for C5: the all-zero curve for the Mamdani half and a
single-entry below-threshold activation list for the Sugeno half. -/
theorem claim5_witness :
    (∀ y ∈ ghiPts, (fun _ : ℝ => (0 : ℝ)) y = 0) ∧
    centroid ghiPts (fun _ => 0) = 0 ∧
    (∀ p ∈ [(("noite" : String), (0 : ℝ))], p.2 ≤ 0.001) ∧
    agregar [("noite", 0)] 0 0 0 0 = 0 :=
  ⟨fun _ _ => rfl, claim5.1 (fun _ => 0) (fun _ _ => rfl),
   by rintro p hp; rcases List.mem_singleton.mp hp with rfl; norm_num,
   claim5.2 [("noite", 0)] 0 0 0 0
     (by rintro p hp; rcases List.mem_singleton.mp hp with rfl; norm_num)⟩

/-- C10: at the day/night boundary `hora_cos = 0.2` (the only value `≥ 0.2`
that does not trigger the night short-circuit), the attenuation factor
`1 - (h_cos - 0.1) * 10` is exactly `0`, so the three horizon rule
activations are exactly `0` for all `hora_sin`, cloud and temperature
inputs. -/
theorem claim10 (s n t : ℝ) :
    (calcular_ativacao s 0.2 n t).lookup "horizonte_nascer" = some 0 ∧
    (calcular_ativacao s 0.2 n t).lookup "horizonte_por" = some 0 ∧
    (calcular_ativacao s 0.2 n t).lookup "horizonte_nublado" = some 0 := by
  simp only [calcular_ativacao]
  norm_num [List.lookup]
  simp
